import Mathlib

/-!
Shallow embedding of the `broker_parser` repository (Python) in Lean 4.

The repository has two row-to-record normalization variants:
 * the legacy `broker_data_parser.py` (class `BrokerDataParser` plus the
   module-level `transform_data` driver), and
 * the newer `src/broker_parser/brokers/pellegrini/parser.py`
   (class `PellegriniParser`) with the shared dataclasses of
   `src/broker_parser/shared/types.py`.

Modelling conventions used throughout:
 * A pandas cell is modelled by `Cell`: it is either the float NaN
   (how pandas represents an empty cell), a string, or a non-NaN float.
 * Python floats are idealized as exact rationals; NaN is kept as a
   separate constructor of `PyFloat`.  Binary rounding, infinities and
   exponent-form literals are outside the scope of the claims and are
   not modelled; `float(s)` is modelled on plain decimal literals
   (optional sign, digits, optional single decimal point).
 * `str.lower` / `str.upper` are modelled on their ASCII behaviour
   (all inputs exercised by the claims are ASCII where case matters).
 * `str.strip` is modelled as removal of leading and trailing ASCII
   whitespace.
 * pandas `Series.str.contains(pat)` is applied by the source to
   metacharacter-free patterns, where it coincides with substring
   containment; it is modelled as substring containment.
-/

/-- A pandas cell value: NaN (missing), a string, or a (non-NaN) float. -/
inductive Cell where
  | nanC : Cell
  | strC : String → Cell
  | floatC : ℚ → Cell
deriving DecidableEq

/-- A Python float, idealized: NaN or an exact rational. -/
inductive PyFloat where
  | nan : PyFloat
  | val : ℚ → PyFloat
deriving DecidableEq

/-- Python `abs` on floats: `abs(nan)` is `nan`. -/
def pyAbs : PyFloat → PyFloat
  | .nan => .nan
  | .val q => .val |q|

/-- `0 <= f` for a Python float; false for NaN (all NaN comparisons are false). -/
def PyFloat.nonneg : PyFloat → Prop
  | .nan => False
  | .val q => 0 ≤ q

instance : DecidablePred PyFloat.nonneg := fun f =>
  match f with
  | .nan => (inferInstance : Decidable False)
  | .val q => (inferInstance : Decidable (0 ≤ q))

deriving instance DecidableEq for Except

/-- `pd.isna` on a cell: true exactly for the NaN cell. -/
def cellIsNA : Cell → Bool
  | .nanC => true
  | _ => false

/-- Python `==` between a cell and a string literal: true only when the cell
is that very string (a float or NaN never equals a string). -/
def cellEqStr (c : Cell) (s : String) : Bool :=
  match c with
  | .strC t => t == s
  | _ => false

/-- Python `str()` of a cell.  `str(nan) = "nan"`; the decimal repr of a
non-NaN float is abstracted by the rational's `toString` (no claim inspects
it). -/
def pyStrCell : Cell → String
  | .nanC => "nan"
  | .strC s => s
  | .floatC q => toString q

/-- Whether `pat` occurs at the head of `l` (character-list version of
Python `str.startswith`). -/
def leadsWith : List Char → List Char → Bool
  | [], _ => true
  | _ :: _, [] => false
  | a :: as, b :: bs => a == b && leadsWith as bs

/-- Whether `pat` occurs somewhere inside `l` (Python `pat in s`). -/
def containsSub (pat : List Char) : List Char → Bool
  | [] => leadsWith pat []
  | c :: rest => leadsWith pat (c :: rest) || containsSub pat rest

/-- Python substring test `pat in s`. -/
def strHas (s pat : String) : Bool := containsSub pat.toList s.toList

/-- `s.replace(c, "")` for a set of characters, i.e. remove every
occurrence of each of the characters `cs` from `s`. -/
def removeChars (s : String) (cs : List Char) : String :=
  ⟨s.toList.filter (fun c => !cs.contains c)⟩

/-- Digits of a character list folded to a natural number (the list is
assumed to consist of digits). -/
def digitsVal (cs : List Char) : ℕ :=
  cs.foldl (fun n c => 10 * n + (c.toNat - 48)) 0

/-- Python `float(s)` on an unsigned plain decimal literal: digits with an
optional single decimal point, at least one digit present (`"5."`, `".5"`
and `"5.25"` are all accepted, `""`, `"."`, `"1.2.3"` are not). -/
def parseUnsignedDecimal (cs : List Char) : Option ℚ :=
  match cs.splitOn '.' with
  | [intPart] =>
      if intPart ≠ [] ∧ intPart.all Char.isDigit then
        some (mkRat (Int.ofNat (digitsVal intPart)) 1)
      else none
  | [intPart, fracPart] =>
      if (intPart ≠ [] ∨ fracPart ≠ []) ∧ intPart.all Char.isDigit ∧
          fracPart.all Char.isDigit then
        some (mkRat (Int.ofNat
            (digitsVal intPart * 10 ^ fracPart.length + digitsVal fracPart))
          (10 ^ fracPart.length))
      else none
  | _ => none

/-- Python `float(s)`: optional sign then an unsigned decimal literal.
Returns `none` where `float` raises `ValueError`. -/
def pyFloatOfString (s : String) : Option ℚ :=
  match s.toList with
  | '-' :: rest => (parseUnsignedDecimal rest).map Neg.neg
  | '+' :: rest => parseUnsignedDecimal rest
  | cs => parseUnsignedDecimal cs

/-- `BrokerDataParser._clean_numeric_value` (broker_data_parser.py 178-189):
NaN maps to `0.0`; otherwise `'$'`, `' '` and `','` are removed from
`str(value)` and the result is passed to `float`, any `ValueError` being
soft-failed to `0.0`.  A non-NaN float cell round-trips through its string
repr unchanged. -/
def clean_numeric_value : Cell → ℚ
  | .nanC => 0
  | .floatC q => q
  | .strC s =>
      match pyFloatOfString (removeChars s ['$', ' ', ',']) with
      | some q => q
      | none => 0

/-- `PellegriniParser._clean_numeric` (pellegrini/parser.py 369-394):
a float argument (NaN included) is returned unchanged; a string has
`'$'`, `','`, `' '` removed, is negative iff a `'-'` occurs anywhere in it,
has every `'-'` removed and is passed to `float`; conversion failure
soft-fails to `0.0`. -/
def clean_numeric : Cell → PyFloat
  | .nanC => .nan
  | .floatC q => .val q
  | .strC s =>
      let cleaned := removeChars s ['$', ',', ' ']
      let isNeg := cleaned.toList.contains '-'
      let cleaned2 := removeChars cleaned ['-']
      match pyFloatOfString cleaned2 with
      | some q => .val (if isNeg then -q else q)
      | none => .val 0

/-- Gregorian leap-year test, as used by `datetime`. -/
def isLeapYear (y : ℕ) : Bool :=
  y % 4 == 0 && (y % 100 != 0 || y % 400 == 0)

/-- Number of days of month `m` of year `y` (`datetime`'s calendar). -/
def daysInMonth (m y : ℕ) : ℕ :=
  if m == 2 then (if isLeapYear y then 29 else 28)
  else if m == 4 || m == 6 || m == 9 || m == 11 then 30
  else 31

/-- Whether a character list is one-or-two digits (the `%d` / `%m`
field shapes accepted by `datetime.strptime`). -/
def isShortDigitField (cs : List Char) : Bool :=
  (cs.length == 1 || cs.length == 2) && cs.all Char.isDigit

/-- `datetime.strptime(s, "%d/%m/%Y")`, modelled: the string must be exactly
`<day>/<month>/<year>` with the day and month of one or two digits in range
and the year of exactly four digits, the day not exceeding the length of the
month.  Returns `(day, month, year)`; `none` where `strptime` (or the
`datetime` constructor) raises. -/
def pyStrptimeDMY (s : String) : Option (ℕ × ℕ × ℕ) :=
  match s.toList.splitOn '/' with
  | [ds, ms, ys] =>
      if isShortDigitField ds ∧ isShortDigitField ms ∧
          ys.length = 4 ∧ ys.all Char.isDigit then
        let d := digitsVal ds
        let m := digitsVal ms
        let y := digitsVal ys
        if 1 ≤ d ∧ 1 ≤ m ∧ m ≤ 12 ∧ 1 ≤ y ∧ d ≤ daysInMonth m y then
          some (d, m, y)
        else none
      else none
  | _ => none

/-- Zero-pad a natural below 100 to two digits (`strftime` `%m` / `%d`). -/
def pad2 (n : ℕ) : String :=
  if n < 10 then "0" ++ toString n else toString n

/-- Zero-pad a year to four digits (`strftime` `%Y`). -/
def pad4 (n : ℕ) : String :=
  if n < 10 then "000" ++ toString n
  else if n < 100 then "00" ++ toString n
  else if n < 1000 then "0" ++ toString n
  else toString n

/-- `date.strftime("%m/%d/%Y")` on a `(day, month, year)` triple. -/
def fmtMDY (dmy : ℕ × ℕ × ℕ) : String :=
  pad2 dmy.2.1 ++ "/" ++ pad2 dmy.1 ++ "/" ++ pad4 dmy.2.2

/-- `BrokerDataParser._format_date` (broker_data_parser.py 191-201):
NaN maps to `""`; a string is parsed as `%d/%m/%Y` and re-emitted as
`%m/%d/%Y`; any failure (unparseable string, or the `TypeError` raised by
`strptime` on a float argument) soft-fails to `""`. -/
def format_date : Cell → String
  | .nanC => ""
  | .floatC _ => ""
  | .strC s =>
      match pyStrptimeDMY s with
      | some dmy => fmtMDY dmy
      | none => ""

/-- The seven logical fields of `BrokerDataParser.column_mapping`. -/
inductive LogicalField where
  | tipoLiquidacion | fechaConcertacion | tipoCuota | numero
  | cuotapartes | valorCuota | inversionNeta
deriving DecidableEq

/-- `BrokerDataParser.column_mapping` (broker_data_parser.py 87-95): the
ordered variant list of each logical field.  (In the Python source the
first and third entries of the accented fields are the same string spelled
two ways — `'Liquidación'` and `'Liquidaci\xf3n'` — so the lists contain a
literal duplicate, kept here.) -/
def columnMapping : LogicalField → List String
  | .tipoLiquidacion =>
      ["Tipo de Liquidación", "Tipo de Liquidacion",
       "Tipo de Liquidación", "Tipo de LiquidaciÃ³n"]
  | .fechaConcertacion =>
      ["Fecha de Concertación", "Fecha de Concertacion",
       "Fecha de Concertación", "Fecha de ConcertaciÃ³n"]
  | .tipoCuota => ["Tipo de Cuota"]
  | .numero => ["Número", "Numero", "Número", "NÃºmero"]
  | .cuotapartes => ["Cuotapartes"]
  | .valorCuota => ["Valor Cuota"]
  | .inversionNeta =>
      ["Inversión Neta", "Inversion Neta", "Inversión Neta", "InversiÃ³n Neta"]

/-- `BrokerDataParser._find_column` (broker_data_parser.py 100-105):
returns the first name of `possibleNames` present among `headers`, and
raises `ValueError` when none is. -/
def find_column (headers : List String) : List String → Except String String
  | [] => .error "Could not find column with any of these names"
  | n :: rest =>
      if headers.contains n then .ok n else find_column headers rest

/-- The column binding table `BrokerDataParser.actual_columns` after
`_initialize_columns` succeeded. -/
structure Bindings where
  tipoLiquidacion : String
  fechaConcertacion : String
  tipoCuota : String
  numero : String
  cuotapartes : String
  valorCuota : String
  inversionNeta : String
deriving DecidableEq

/-- The concrete header bound to a logical field. -/
def Bindings.get (b : Bindings) : LogicalField → String
  | .tipoLiquidacion => b.tipoLiquidacion
  | .fechaConcertacion => b.fechaConcertacion
  | .tipoCuota => b.tipoCuota
  | .numero => b.numero
  | .cuotapartes => b.cuotapartes
  | .valorCuota => b.valorCuota
  | .inversionNeta => b.inversionNeta

/-- `BrokerDataParser._initialize_columns` (broker_data_parser.py 107-111):
resolves every logical field in the insertion order of `column_mapping`;
any `_find_column` failure propagates (aborting the file). -/
def initialize_columns (headers : List String) : Except String Bindings :=
  match find_column headers (columnMapping .tipoLiquidacion),
      find_column headers (columnMapping .fechaConcertacion),
      find_column headers (columnMapping .tipoCuota),
      find_column headers (columnMapping .numero),
      find_column headers (columnMapping .cuotapartes),
      find_column headers (columnMapping .valorCuota),
      find_column headers (columnMapping .inversionNeta) with
  | .ok tl, .ok fc, .ok tc, .ok nu, .ok cu, .ok vc, .ok inv =>
      .ok ⟨tl, fc, tc, nu, cu, vc, inv⟩
  | _, _, _, _, _, _, _ =>
      .error "Could not find column with any of these names"

/-- An input row: the association of header names to cell values
(a pandas `Series` indexed by the column labels). -/
abbrev Row := List (String × Cell)

/-- `row[name]`: `KeyError` (modelled as `Except.error`) when the label is
absent. -/
def rowGet (r : Row) (name : String) : Except String Cell :=
  match r.find? (fun p => p.1 == name) with
  | some p => .ok p.2
  | none => .error "KeyError"

/-- The dictionary built by `BrokerDataParser._parse_pellegrini_mutual_fund`
(broker_data_parser.py 156-177). -/
structure Rec where
  operation_type : String
  fund_operation_type : String
  agreement_date : String
  settlement_term : String
  settlement_date : String
  exchange : String
  security_amount : ℚ
  security_name : String
  net_payment_amount : ℚ
  currency : String
  tipo_cuota : String
  numero : String
  valor_cuota : ℚ
deriving DecidableEq

/-- `BrokerDataParser._parse_pellegrini_mutual_fund`
(broker_data_parser.py 143-177): cleans the numeric cells, derives the
sub-kind from the `tipo_liquidacion` cell (`"Rescate"` gives
`"FundRedemption"`, anything else `"FundSubscription"`), formats the date
twice and stores the absolute values of `cuotapartes` and
`inversion_neta`.  The only failure it can propagate is a `KeyError` from
a cell access. -/
def parse_pellegrini_mutual_fund (b : Bindings) (r : Row) :
    Except String Rec :=
  match rowGet r b.cuotapartes, rowGet r b.valorCuota,
      rowGet r b.inversionNeta, rowGet r b.tipoLiquidacion,
      rowGet r b.fechaConcertacion, rowGet r b.tipoCuota,
      rowGet r b.numero with
  | .ok cu, .ok vc, .ok inv, .ok tipo, .ok fecha, .ok tcu, .ok num =>
    .ok
    { operation_type := "MutualFund"
      fund_operation_type :=
        if cellEqStr tipo "Rescate" then "FundRedemption"
        else "FundSubscription"
      agreement_date := format_date fecha
      settlement_term := "T"
      settlement_date := format_date fecha
      exchange := "Mercado de Fondos"
      security_amount := |clean_numeric_value cu|
      security_name := "PELLEGRINI RENTA PESOS"
      net_payment_amount := |clean_numeric_value inv|
      currency := "ARS"
      tipo_cuota := pyStrCell tcu
      numero := pyStrCell num
      valor_cuota := clean_numeric_value vc }
  | _, _, _, _, _, _, _ => .error "KeyError"

/-- `BrokerDataParser.parse_row` (broker_data_parser.py 113-141): raises
(`Except.error`) when the kind-indicator cell is NaN or is the non-data
sentinel string, otherwise parses the row as a mutual-fund operation. -/
def parse_row (b : Bindings) (r : Row) : Except String Rec :=
  match rowGet r b.tipoLiquidacion with
  | .error e => .error e
  | .ok tipo =>
      if cellIsNA tipo || cellEqStr tipo "Fondo PELLEGRINI RENTA PESOS" then
        .error "Skipping header row"
      else
        parse_pellegrini_mutual_fund b r

/-- One iteration of the `transform_data` row loop: append on success,
keep the accumulator on any caught exception. -/
def stepL (b : Bindings) (acc : List Rec) (r : Row) : List Rec :=
  match parse_row b r with
  | .ok rec => acc ++ [rec]
  | .error _ => acc

/-- The row loop of `transform_data` (broker_data_parser.py 236-245):
every exception from `parse_row` is caught and the loop continues with the
next row; successfully parsed rows are appended in order. -/
def processRows (b : Bindings) (rows : List Row) : List Rec :=
  rows.foldl (stepL b) []

/-- `transform_data` (broker_data_parser.py 203-268), file I/O aside:
binds the columns once per file (any `_find_column` error propagates to
the caller), runs the row loop, and raises
`"No valid data was parsed from the input file"` when no row parsed. -/
def transform_data (headers : List String) (rows : List Row) :
    Except String (List Rec) :=
  match initialize_columns headers with
  | .error e => .error e
  | .ok b =>
      let recs := processRows b rows
      if recs = [] then
        .error "No valid data was parsed from the input file"
      else
        .ok recs

/-- `OperationType` of `src/broker_parser/shared/types.py` (the same four
kinds as the spec's `OperationKind` and as the legacy enum of
`broker_data_parser.py`). -/
inductive OperationType where
  | TRADE | MONETARY_FLOW | SECURITY_FLOW | MUTUAL_FUND
deriving DecidableEq

/-- ASCII lowercasing of one character. -/
def charLower (c : Char) : Char :=
  if 'A' ≤ c ∧ c ≤ 'Z' then Char.ofNat (c.toNat + 32) else c

/-- ASCII uppercasing of one character. -/
def charUpper (c : Char) : Char :=
  if 'a' ≤ c ∧ c ≤ 'z' then Char.ofNat (c.toNat - 32) else c

/-- Python `str.lower`, modelled on its ASCII behaviour. -/
def pyLower (s : String) : String := ⟨s.toList.map charLower⟩

/-- Python `str.upper`, modelled on its ASCII behaviour. -/
def pyUpper (s : String) : String := ⟨s.toList.map charUpper⟩

/-- Whitespace for the purposes of `str.strip`. -/
def isSpaceChar (c : Char) : Bool :=
  c == ' ' || c == '\t' || c == '\n' || c == '\r'

/-- Python `str.strip()`: remove leading and trailing whitespace. -/
def pyStrip (s : String) : String :=
  ⟨((s.toList.dropWhile isSpaceChar).reverse.dropWhile isSpaceChar).reverse⟩

/-- The ticker lookup table loaded from `Especies.csv`:
(`Instrumento`, `Ticker`) pairs in file order. -/
abbrev EspeciesTable := List (String × String)

/-- The share-class search token of `_get_ticker_for_fund`:
`"clase "` plus the trimmed, lowercased share class. -/
def tickerClassToken (shareClass : String) : String :=
  "clase " ++ pyLower (pyStrip shareClass)

/-- The normalized fund-name search token: lowercased, trimmed, with a
leading `"pellegrini"` stripped (the first-occurrence `replace` of the
source runs under a `startswith` guard, so it removes the 10-character
head) and re-trimmed. -/
def tickerFundToken (fundName : String) : String :=
  let fn0 := pyLower (pyStrip fundName)
  if leadsWith "pellegrini".toList fn0.toList then
    pyStrip ⟨fn0.toList.drop 10⟩
  else fn0

/-- The rows of the lookup table whose lowercased instrument text contains
both search tokens, in table order. -/
def tickerMatchRows (especies : EspeciesTable)
    (fundName shareClass : String) : EspeciesTable :=
  especies.filter
    (fun p => strHas (pyLower p.1) (tickerFundToken fundName) &&
      strHas (pyLower p.1) (tickerClassToken shareClass))

/-- `PellegriniParser._get_ticker_for_fund` (pellegrini/parser.py 116-165):
lowercases and trims the fund name, builds the token `"clase <letter>"`
from the trimmed lowercased share class, strips a leading `"pellegrini"`
from the fund name, and filters the table for rows whose lowercased
instrument contains both substrings.  A nonempty match set returns the
first matching row's ticker (the single-match and multiple-match branches
of the source both do); an empty one returns the synthesized
`"pellegrini <fund> - <clase token>"` fallback. -/
def get_ticker_for_fund (especies : EspeciesTable)
    (fundName shareClass : String) : String :=
  match tickerMatchRows especies fundName shareClass with
  | [] =>
      "pellegrini " ++ tickerFundToken fundName ++ " - " ++
        tickerClassToken shareClass
  | m :: _ => m.2

/-- The `MutualFund` dataclass of `src/broker_parser/shared/types.py` as
constructed by `PellegriniParser._parse_row`; the date is the strptime
result `(day, month, year)`. -/
structure MF where
  date : ℕ × ℕ × ℕ
  operationType : OperationType
  description : Cell
  amount : PyFloat
  broker : String
  currency : String
  fundName : String
  quantity : PyFloat
  nav : PyFloat
  totalAmount : PyFloat
deriving DecidableEq

/-- A row of the Pellegrini CSV after the header has been read: the cells
of the six columns accessed by `PellegriniParser._parse_row`. -/
structure RowP where
  fecha : Cell
  tipoCuota : Cell
  tipoLiq : Cell
  cuotapartes : Cell
  valorCuota : Cell
  inversionNeta : Cell
deriving DecidableEq

/-- `PellegriniParser._get_operation_type` (pellegrini/parser.py 357-367):
a constant function — for Pellegrini every operation is a mutual-fund
operation, whatever the label. -/
def get_operation_type (_label : Cell) : OperationType :=
  OperationType.MUTUAL_FUND

/-- `PellegriniParser._parse_row` (pellegrini/parser.py 214-267): returns
`none` when the date cell is NaN, when `strptime` fails on it (an
unparseable string, or the `TypeError` on a float), or on any other
exception; otherwise builds the `MutualFund` record with the ticker, the
constant operation type, and the absolute values of the cleaned
`Cuotapartes` and `Inversión Neta` cells.  A non-string share-class cell
makes `_get_ticker_for_fund` fail internally on `.strip()`; its handler
returns the fallback built from the lowercased fund name and the raw
share-class value, so the row itself still parses. -/
def parse_row_v2 (especies : EspeciesTable) (baseFund : String)
    (r : RowP) : Option MF :=
  if cellIsNA r.fecha then none
  else
    match r.fecha with
    | .strC s =>
        match pyStrptimeDMY s with
        | none => none
        | some dmy =>
            let ticker :=
              match r.tipoCuota with
              | .strC sc => get_ticker_for_fund especies baseFund sc
              | other =>
                  "pellegrini " ++ pyLower (pyStrip baseFund) ++ " - " ++
                    pyStrCell other
            let cantidad := clean_numeric r.cuotapartes
            let precio := clean_numeric r.valorCuota
            let importe := clean_numeric r.inversionNeta
            some
              { date := dmy
                operationType := get_operation_type r.tipoLiq
                description := r.tipoLiq
                amount := pyAbs importe
                broker := "Pellegrini"
                currency := "ARS"
                fundName := ticker
                quantity := pyAbs cantidad
                nav := precio
                totalAmount := pyAbs importe }
    | _ => none

/-- One iteration of the `PellegriniParser.parse_file` row loop
(pellegrini/parser.py 195-208): `None` results and raised exceptions are
both skipped, parsed operations are appended in order. -/
def stepP (especies : EspeciesTable) (baseFund : String)
    (acc : List MF) (r : RowP) : List MF :=
  match parse_row_v2 especies baseFund r with
  | some op => acc ++ [op]
  | none => acc

/-- The `parse_file` row loop itself: fold `stepP` over the rows,
starting empty; the (possibly empty) operations list is returned without
error. -/
def parse_file_rows (especies : EspeciesTable) (baseFund : String)
    (rows : List RowP) : List MF :=
  rows.foldl (stepP especies baseFund) []

/-- `OPERATION_TYPE_MAPPING.get(op.description, op.description)`
(pellegrini/parser.py 41-44 and 286): `"Rescate"` maps to
`"FundRedemption"`, `"Suscripción"` to `"FundSubscription"`, any other
description is passed through unchanged. -/
def operationTypeMap (d : Cell) : Cell :=
  if cellEqStr d "Rescate" then .strC "FundRedemption"
  else if cellEqStr d "Suscripción" then .strC "FundSubscription"
  else d

/-- One output row of `PellegriniParser.write_to_excel`
(pellegrini/parser.py 283-295). -/
structure OutRow where
  fundOperationType : Cell
  agreementDate : String
  settlementTerm : String
  settlementDate : String
  exchange : String
  securityAmount : PyFloat
  securityName : String
  netPaymentAmount : PyFloat
  currency : String
deriving DecidableEq

/-- The output dictionary built for one `MutualFund` operation in
`write_to_excel`. -/
def toOutRow (op : MF) : OutRow :=
  { fundOperationType := operationTypeMap op.description
    agreementDate := fmtMDY op.date
    settlementTerm := "T"
    settlementDate := fmtMDY op.date
    exchange := "Mercado de Fondos"
    securityAmount := op.quantity
    securityName := op.fundName
    netPaymentAmount := op.totalAmount
    currency := op.currency }

/-- `PellegriniParser.write_to_excel` (pellegrini/parser.py 269-280), the
spreadsheet I/O aside: raises `"No operations to write to Excel file"` on
an empty operations list, otherwise emits one output row per operation. -/
def write_to_excel (ops : List MF) : Except String (List OutRow) :=
  if ops = [] then .error "No operations to write to Excel file"
  else .ok (ops.map toOutRow)

/-- The Pellegrini end-to-end file operation as driven by
`examples/pellegrini_example.py`: `parse_file` followed by
`write_to_excel`. -/
def pellegriniPipeline (especies : EspeciesTable) (baseFund : String)
    (rows : List RowP) : Except String (List OutRow) :=
  write_to_excel (parse_file_rows especies baseFund rows)

/-- Modelled from the spec: the generic keyword Operation Classifier of
spec §4.3 is not present under `src/` — the only classifier there is the
Pellegrini fund-only constant `_get_operation_type` — so `classify` is
modelled from the spec's words: a case-insensitive keyword match against
the uppercased label, with the bullet order of §4.3 as the match order
and MonetaryFlow as the explicit default. -/
def classify (label : String) : OperationType :=
  let u := pyUpper label
  if strHas u "COMPRA" || strHas u "VENTA" then .TRADE
  else if strHas u "TRANSFERENCIA" then .MONETARY_FLOW
  else if strHas u "DEPOSITO" || strHas u "RETIRO" then .SECURITY_FLOW
  else if strHas u "FONDO" then .MUTUAL_FUND
  else .MONETARY_FLOW

/-! Concrete fixtures used by counterexamples and witnesses. -/

/-- The bindings produced on a file whose headers are the canonical
accented forms. -/
def stdBindings : Bindings :=
  ⟨"Tipo de Liquidación", "Fecha de Concertación", "Tipo de Cuota",
   "Número", "Cuotapartes", "Valor Cuota", "Inversión Neta"⟩

/-- The canonical accented header row. -/
def stdHeaders : List String :=
  ["Tipo de Liquidación", "Fecha de Concertación", "Tipo de Cuota",
   "Número", "Cuotapartes", "Valor Cuota", "Inversión Neta"]

/-- A legacy-format row with a valid kind indicator but an unparseable
date. -/
def badDateRow : Row :=
  [("Tipo de Liquidación", .strC "Rescate"),
   ("Fecha de Concertación", .strC "not-a-date"),
   ("Tipo de Cuota", .strC "A"),
   ("Número", .strC "1"),
   ("Cuotapartes", .strC "10"),
   ("Valor Cuota", .strC "2"),
   ("Inversión Neta", .strC "20")]

/-- A legacy-format row that parses fully. -/
def goodRow : Row :=
  [("Tipo de Liquidación", .strC "Rescate"),
   ("Fecha de Concertación", .strC "31/12/2023"),
   ("Tipo de Cuota", .strC "A"),
   ("Número", .strC "1"),
   ("Cuotapartes", .strC "10"),
   ("Valor Cuota", .strC "2"),
   ("Inversión Neta", .strC "-20")]

/-- A v2-format row whose `Cuotapartes` cell is the missing-value NaN but
whose date is valid. -/
def nanQtyRow : RowP :=
  { fecha := .strC "01/02/2023"
    tipoCuota := .strC "A"
    tipoLiq := .strC "Rescate"
    cuotapartes := .nanC
    valorCuota := .strC "2"
    inversionNeta := .nanC }

/-- A v2-format row that parses fully with signed numeric strings. -/
def goodRowP : RowP :=
  { fecha := .strC "31/12/2023"
    tipoCuota := .strC "A"
    tipoLiq := .strC "Rescate"
    cuotapartes := .strC "-10"
    valorCuota := .strC "2"
    inversionNeta := .strC "-20"
}

/-- A legacy-format row carrying the repeated-header sentinel in its kind
cell. -/
def sentinelRow : Row :=
  [("Tipo de Liquidación", .strC "Fondo PELLEGRINI RENTA PESOS"),
   ("Fecha de Concertación", .nanC),
   ("Tipo de Cuota", .nanC),
   ("Número", .nanC),
   ("Cuotapartes", .nanC),
   ("Valor Cuota", .nanC),
   ("Inversión Neta", .nanC)]

/-- A v2-format row with an unparseable date string. -/
def badDateRowP : RowP :=
  { fecha := .strC "not-a-date"
    tipoCuota := .strC "A"
    tipoLiq := .strC "Rescate"
    cuotapartes := .strC "10"
    valorCuota := .strC "2"
    inversionNeta := .strC "20"
}

/-- The record `parse_row` produces on `goodRow`. -/
def goodRec : Rec :=
  { operation_type := "MutualFund"
    fund_operation_type := "FundRedemption"
    agreement_date := "12/31/2023"
    settlement_term := "T"
    settlement_date := "12/31/2023"
    exchange := "Mercado de Fondos"
    security_amount := 10
    security_name := "PELLEGRINI RENTA PESOS"
    net_payment_amount := 20
    currency := "ARS"
    tipo_cuota := "A"
    numero := "1"
    valor_cuota := 2 }

/-- The operation `parse_row_v2` produces on `goodRowP` with an empty
lookup table and base fund `"Pellegrini"`. -/
def goodMF : MF :=
  { date := (31, 12, 2023)
    operationType := .MUTUAL_FUND
    description := .strC "Rescate"
    amount := .val 20
    broker := "Pellegrini"
    currency := "ARS"
    fundName := "pellegrini  - clase a"
    quantity := .val 10
    nav := .val 2
    totalAmount := .val 20 }

/-- A two-row lookup table in which both instruments contain both search
tokens. -/
def especiesTwo : EspeciesTable :=
  [("pellegrini renta fija clase a", "T1"),
   ("fci pellegrini renta fija - clase a", "T2")]

/-! Helper lemmas shared by the claim theorems. -/

/-- The legacy row loop, from any accumulator, appends exactly the
successful per-row results. -/
theorem processRows_acc (b : Bindings) (rows : List Row)
    (acc : List Rec) :
    rows.foldl (stepL b) acc
      = acc ++ rows.filterMap (fun r => (parse_row b r).toOption) := by
  induction rows generalizing acc with
  | nil => simp
  | cons r rs ih =>
      cases h : parse_row b r <;>
        simp [List.foldl_cons, stepL, h, ih, List.filterMap_cons,
          Except.toOption]

/-- The legacy row loop is `filterMap` of the per-row parser. -/
theorem processRows_eq (b : Bindings) (rows : List Row) :
    processRows b rows
      = rows.filterMap (fun r => (parse_row b r).toOption) := by
  simpa [processRows] using processRows_acc b rows []

/-- The v2 row loop, from any accumulator, appends exactly the successful
per-row results. -/
theorem parse_file_rows_acc (especies : EspeciesTable) (baseFund : String)
    (rows : List RowP) (acc : List MF) :
    rows.foldl (stepP especies baseFund) acc
      = acc ++ rows.filterMap (parse_row_v2 especies baseFund) := by
  induction rows generalizing acc with
  | nil => simp
  | cons r rs ih =>
      cases h : parse_row_v2 especies baseFund r <;>
        simp [List.foldl_cons, stepP, h, ih, List.filterMap_cons]

/-- The v2 row loop is `filterMap` of the per-row parser. -/
theorem parse_file_rows_eq (especies : EspeciesTable) (baseFund : String)
    (rows : List RowP) :
    parse_file_rows especies baseFund rows
      = rows.filterMap (parse_row_v2 especies baseFund) := by
  simpa [parse_file_rows] using
    parse_file_rows_acc especies baseFund rows []

theorem leadsWith_append (p rest : List Char) :
    leadsWith p (p ++ rest) = true := by
  induction p with
  | nil => rfl
  | cons c cs ih => simp [leadsWith, ih]

theorem containsSub_append_left (p rest : List Char) :
    containsSub p (p ++ rest) = true := by
  cases p with
  | nil => cases rest <;> simp [containsSub, leadsWith]
  | cons c cs =>
      simp only [containsSub, List.cons_append, Bool.or_eq_true]
      exact Or.inl (leadsWith_append (c :: cs) rest)

theorem containsSub_cons (p l : List Char) (c : Char)
    (h : containsSub p l = true) : containsSub p (c :: l) = true := by
  simp [containsSub, h]

theorem containsSub_append_right (p l1 l2 : List Char)
    (h : containsSub p l2 = true) :
    containsSub p (l1 ++ l2) = true := by
  induction l1 with
  | nil => exact h
  | cons c cs ih => simpa [List.cons_append] using containsSub_cons p _ c ih

/-- Absolute value of a non-NaN float is non-negative. -/
theorem pyAbs_nonneg (f : PyFloat) (h : f ≠ .nan) :
    (pyAbs f).nonneg := by
  cases f with
  | nan => exact absurd rfl h
  | val q =>
      show PyFloat.nonneg (.val |q|)
      exact abs_nonneg q

/-- `_find_column` returns the first variant present in the header. -/
theorem find_column_first (headers : List String) :
    ∀ pre v post, (∀ u ∈ pre, u ∉ headers) → v ∈ headers →
      find_column headers (pre ++ v :: post) = .ok v := by
  intro pre
  induction pre with
  | nil => intro v post _ hv; simp [find_column, hv]
  | cons u us ih =>
      intro v post hpre hv
      have hu : u ∉ headers := hpre u (by simp)
      simpa [find_column, hu] using
        ih v post (fun w hw => hpre w (by simp [hw])) hv

/-- `_find_column` raises when no variant is present. -/
theorem find_column_none (headers : List String) :
    ∀ vs, (∀ u ∈ vs, u ∉ headers) →
      find_column headers vs
        = .error "Could not find column with any of these names" := by
  intro vs
  induction vs with
  | nil => intro _; rfl
  | cons u us ih =>
      intro h
      have hu : u ∉ headers := h u (by simp)
      simpa [find_column, hu] using ih (fun w hw => h w (by simp [hw]))

/-- A successful `_initialize_columns` bound every logical field via
`_find_column`. -/
theorem initialize_columns_ok (headers : List String) (b : Bindings)
    (h : initialize_columns headers = .ok b) :
    ∀ f, find_column headers (columnMapping f) = .ok (b.get f) := by
  intro f
  unfold initialize_columns at h
  split at h
  case _ tl fc tc nu cu vc inv h1 h2 h3 h4 h5 h6 h7 =>
      cases h
      cases f <;> simp [Bindings.get, h1, h2, h3, h4, h5, h6, h7]
  case _ => exact absurd h (by simp)

/-- A logical field none of whose variants is present makes the whole
file-level `transform_data` call fail. -/
theorem transform_data_error_of_missing (headers : List String)
    (rows : List Row) (f : LogicalField)
    (hf : ∀ u ∈ columnMapping f, u ∉ headers) :
    ∃ e, transform_data headers rows = .error e := by
  have hfc := find_column_none headers (columnMapping f) hf
  cases hic : initialize_columns headers with
  | error e => exact ⟨e, by simp [transform_data, hic]⟩
  | ok b =>
      have hok := initialize_columns_ok headers b hic f
      rw [hfc] at hok
      exact absurd hok (by simp)

theorem strToList_append (a b : String) :
    (a ++ b).toList = a.toList ++ b.toList :=
  String.data_append a b

/-- A string contains its own head part. -/
theorem strHas_head (p rest : String) : strHas (p ++ rest) p = true := by
  show containsSub p.toList (p ++ rest).toList = true
  rw [strToList_append]
  exact containsSub_append_left _ _

/-- A string contains any of its middle parts. -/
theorem strHas_parts (pre p post : String) :
    strHas (pre ++ p ++ post) p = true := by
  show containsSub p.toList (pre ++ p ++ post).toList = true
  rw [String.append_assoc, strToList_append, strToList_append]
  exact containsSub_append_right _ _ _ (containsSub_append_left _ _)

/-! The claim theorems. -/

/-- C1, counterexample: the claim asserts that both numeric cleaners map
an empty/absent (NaN) cell to `0.0`, but `PellegriniParser._clean_numeric`
returns a NaN float argument unchanged, so it does not return `0.0`
there. -/
theorem c1_clean_numeric_nan_counterexample :
    clean_numeric .nanC ≠ .val 0 ∧ clean_numeric .nanC = .nan :=
  ⟨by decide, by decide⟩

/-- C1, amended: both cleaners strip `'$'`, separators and spaces, parse a
minus sign as negation, map `"$ 1,234.56"` to `1234.56`, `"-500"` to
`-500.0`, and soft-fail string-conversion failures (including the empty
string) to `0.0`; `_clean_numeric_value` maps the absent (NaN) cell to
`0.0`, while `_clean_numeric` returns float inputs — NaN included —
unchanged. -/
theorem c1_parse_amount_soft_fail :
    (∀ s q, pyFloatOfString (removeChars s ['$', ' ', ',']) = some q →
        clean_numeric_value (.strC s) = q) ∧
    (∀ s, pyFloatOfString (removeChars s ['$', ' ', ',']) = none →
        clean_numeric_value (.strC s) = 0) ∧
    clean_numeric_value .nanC = 0 ∧
    clean_numeric_value (.strC "$ 1,234.56") = 1234.56 ∧
    clean_numeric_value (.strC "-500") = -500 ∧
    (∀ q, clean_numeric (.floatC q) = .val q) ∧
    clean_numeric .nanC = .nan ∧
    (∀ s, pyFloatOfString
          (removeChars (removeChars s ['$', ',', ' ']) ['-']) = none →
        clean_numeric (.strC s) = .val 0) ∧
    clean_numeric (.strC "$ 1,234.56") = .val 1234.56 ∧
    clean_numeric (.strC "-500") = .val (-500) ∧
    clean_numeric (.strC "") = .val 0 := by
  refine ⟨?_, ?_, by decide, ?_, by decide, fun q => rfl, by decide,
    ?_, ?_, by decide, by decide⟩
  · intro s q h; simp [clean_numeric_value, h]
  · intro s h; simp [clean_numeric_value, h]
  · have h : clean_numeric_value (.strC "$ 1,234.56") = mkRat 123456 100 :=
      by decide
    rw [h, Rat.mkRat_eq_divInt, Rat.divInt_eq_div]; norm_num
  · intro s h; simp [clean_numeric, h]
  · have h : clean_numeric (.strC "$ 1,234.56") = .val (mkRat 123456 100) :=
      by decide
    rw [h, Rat.mkRat_eq_divInt, Rat.divInt_eq_div]; norm_num

/-- C1 witness: the soft-fail clauses applied at concrete unparseable
inputs. -/
theorem c1_parse_amount_soft_fail_witness :
    clean_numeric_value (.strC "12.5abc") = 0 ∧
    clean_numeric_value (.strC "$25") = 25 ∧
    clean_numeric (.strC "x5") = .val 0 :=
  ⟨c1_parse_amount_soft_fail.2.1 "12.5abc" (by decide),
   c1_parse_amount_soft_fail.1 "$25" 25 (by decide),
   (c1_parse_amount_soft_fail.2.2.2.2.2.2.2.1) "x5" (by decide)⟩

/-- C5: `_format_date` reads its input with the day-before-month
convention (`%d/%m/%Y`) and re-emits it month-first, so `"31/12/2023"`
becomes `"12/31/2023"` (December 31, 2023); a NaN cell, a float cell or an
unparseable string yields the empty-string sentinel, and the function is
total (never raises). -/
theorem c5_parse_date_day_first :
    (∀ s d m y, pyStrptimeDMY s = some (d, m, y) →
        format_date (.strC s) = pad2 m ++ "/" ++ pad2 d ++ "/" ++ pad4 y) ∧
    (∀ s, pyStrptimeDMY s = none → format_date (.strC s) = "") ∧
    format_date .nanC = "" ∧
    (∀ q, format_date (.floatC q) = "") ∧
    pyStrptimeDMY "31/12/2023" = some (31, 12, 2023) ∧
    format_date (.strC "31/12/2023") = "12/31/2023" ∧
    format_date (.strC "not-a-date") = "" := by
  refine ⟨?_, ?_, rfl, fun q => rfl, by decide, by decide, by decide⟩
  · intro s d m y h; simp [format_date, h, fmtMDY]
  · intro s h; simp [format_date, h]

/-- C5 witness: the date clauses applied at concrete inputs. -/
theorem c5_parse_date_day_first_witness :
    format_date (.strC "31/12/2023")
      = pad2 12 ++ "/" ++ pad2 31 ++ "/" ++ pad4 2023 ∧
    format_date (.strC "99/99/9999") = "" :=
  ⟨c5_parse_date_day_first.1 "31/12/2023" 31 12 2023 (by decide),
   c5_parse_date_day_first.2.1 "99/99/9999" (by decide)⟩

/-- C10: `_clean_numeric` is the identity on float arguments, NaN and
negative floats included; hence a missing numeric cell (NaN) is not
coerced to `0.0` in the v2 variant but flows into the constructed record
as `abs(NaN) = NaN`, unlike the legacy `_clean_numeric_value`, which maps
NaN to `0.0`. -/
theorem c10_clean_numeric_float_identity :
    (∀ q, clean_numeric (.floatC q) = .val q) ∧
    clean_numeric .nanC = .nan ∧
    pyAbs .nan = .nan ∧
    clean_numeric_value .nanC = 0 ∧
    (∀ especies baseFund r s dmy, r.fecha = .strC s →
        pyStrptimeDMY s = some dmy → r.cuotapartes = .nanC →
        (parse_row_v2 especies baseFund r).map MF.quantity
          = some PyFloat.nan) := by
  refine ⟨fun q => rfl, rfl, rfl, rfl, ?_⟩
  intro especies baseFund r s dmy hf hp hc
  simp [parse_row_v2, hf, hp, cellIsNA, hc, clean_numeric, pyAbs]

/-- C10 witness: a concrete v2 row with a NaN `Cuotapartes` cell and a
valid date yields a record whose quantity is NaN. -/
theorem c10_clean_numeric_float_identity_witness :
    (parse_row_v2 [] "Pellegrini" nanQtyRow).map MF.quantity
      = some PyFloat.nan :=
  c10_clean_numeric_float_identity.2.2.2.2 [] "Pellegrini" nanQtyRow
    "01/02/2023" (1, 2, 2023) rfl (by decide) rfl

/-- C4 (spec-modelled): the keyword classifier matches case-insensitively
on the uppercased label in the spec's bullet order — `COMPRA`/`VENTA` give
Trade, then `TRANSFERENCIA` gives MonetaryFlow, then `DEPOSITO`/`RETIRO`
give SecurityFlow, then `FONDO` gives MutualFund — and every other label
yields MonetaryFlow as the explicit default, never an error (the function
is total). -/
theorem c4_classifier_keywords :
    (∀ label, (strHas (pyUpper label) "COMPRA" = true ∨
        strHas (pyUpper label) "VENTA" = true) →
        classify label = .TRADE) ∧
    (∀ label, strHas (pyUpper label) "COMPRA" = false →
        strHas (pyUpper label) "VENTA" = false →
        strHas (pyUpper label) "TRANSFERENCIA" = true →
        classify label = .MONETARY_FLOW) ∧
    (∀ label, strHas (pyUpper label) "COMPRA" = false →
        strHas (pyUpper label) "VENTA" = false →
        strHas (pyUpper label) "TRANSFERENCIA" = false →
        (strHas (pyUpper label) "DEPOSITO" = true ∨
          strHas (pyUpper label) "RETIRO" = true) →
        classify label = .SECURITY_FLOW) ∧
    (∀ label, strHas (pyUpper label) "COMPRA" = false →
        strHas (pyUpper label) "VENTA" = false →
        strHas (pyUpper label) "TRANSFERENCIA" = false →
        strHas (pyUpper label) "DEPOSITO" = false →
        strHas (pyUpper label) "RETIRO" = false →
        strHas (pyUpper label) "FONDO" = true →
        classify label = .MUTUAL_FUND) ∧
    (∀ label, strHas (pyUpper label) "COMPRA" = false →
        strHas (pyUpper label) "VENTA" = false →
        strHas (pyUpper label) "TRANSFERENCIA" = false →
        strHas (pyUpper label) "DEPOSITO" = false →
        strHas (pyUpper label) "RETIRO" = false →
        strHas (pyUpper label) "FONDO" = false →
        classify label = .MONETARY_FLOW) ∧
    classify "Compra de Acciones" = .TRADE ∧
    classify "Transferencia Recibida" = .MONETARY_FLOW ∧
    classify "Deposito en efectivo" = .SECURITY_FLOW ∧
    classify "Fondo Común" = .MUTUAL_FUND ∧
    classify "Unknown Label" = .MONETARY_FLOW := by
  refine ⟨?_, ?_, ?_, ?_, ?_, by decide, by decide, by decide, by decide,
    by decide⟩
  · intro label h; rcases h with h | h <;> simp [classify, h]
  · intro label h1 h2 h3; simp [classify, h1, h2, h3]
  · intro label h1 h2 h3 h
    rcases h with h | h <;> simp [classify, h1, h2, h3, h]
  · intro label h1 h2 h3 h4 h5 h6; simp [classify, h1, h2, h3, h4, h5, h6]
  · intro label h1 h2 h3 h4 h5 h6; simp [classify, h1, h2, h3, h4, h5, h6]

/-- C4 witness: the keyword clauses applied at concrete labels. -/
theorem c4_classifier_keywords_witness :
    classify "Venta de Bonos" = .TRADE ∧
    classify "Retiro de Titulos" = .SECURITY_FLOW :=
  ⟨c4_classifier_keywords.1 "Venta de Bonos" (Or.inr (by decide)),
   c4_classifier_keywords.2.2.1 "Retiro de Titulos" (by decide) (by decide)
     (by decide) (Or.inr (by decide))⟩

/-- C3: `_find_column` returns the first variant of the declared variant
list that is present in the header (the mojibake variant is returned
verbatim when it is the one present), raises the column-missing error when
none is present, and in that case the whole file-level `transform_data`
call fails rather than skipping rows. -/
theorem c3_column_resolver :
    (∀ headers pre v post, (∀ u ∈ pre, u ∉ headers) → v ∈ headers →
        find_column headers (pre ++ v :: post) = .ok v) ∧
    (∀ headers vs, (∀ u ∈ vs, u ∉ headers) →
        find_column headers vs
          = .error "Could not find column with any of these names") ∧
    (∀ headers rows f, (∀ u ∈ columnMapping f, u ∉ headers) →
        ∃ e, transform_data headers rows = .error e) ∧
    find_column ["Tipo de LiquidaciÃ³n", "Otro"]
        (columnMapping .tipoLiquidacion) = .ok "Tipo de LiquidaciÃ³n" :=
  ⟨fun headers => find_column_first headers,
   fun headers => find_column_none headers,
   fun headers rows f hf => transform_data_error_of_missing headers rows f hf,
   by decide⟩

/-- C3 witness: the resolver clauses applied at concrete headers. -/
theorem c3_column_resolver_witness :
    find_column ["x", "Cuotapartes"] (["a"] ++ "Cuotapartes" :: []) =
      .ok "Cuotapartes" ∧
    find_column ["x"] ["a", "b"]
      = .error "Could not find column with any of these names" ∧
    ∃ e, transform_data ["nada"] [] = .error e :=
  ⟨c3_column_resolver.1 ["x", "Cuotapartes"] ["a"] "Cuotapartes" []
      (by decide) (by decide),
   c3_column_resolver.2.1 ["x"] ["a", "b"] (by decide),
   c3_column_resolver.2.2.1 ["nada"] [] .cuotapartes (by decide)⟩

/-- C9: an input file with no successfully normalized rows makes the
file-level operation fail with an explicit error.  The legacy
`transform_data` never returns an empty record list and raises the
no-valid-data error when the row loop produced nothing; the v2 pipeline
(`parse_file` followed by `write_to_excel`, as driven by the example
script) never returns an empty output and raises the no-operations error
when `parse_file` produced nothing. -/
theorem c9_empty_result_error :
    (∀ headers rows, transform_data headers rows ≠ .ok []) ∧
    (∀ headers rows b, initialize_columns headers = .ok b →
        processRows b rows = [] →
        transform_data headers rows
          = .error "No valid data was parsed from the input file") ∧
    (∀ especies baseFund rows,
        pellegriniPipeline especies baseFund rows ≠ .ok []) ∧
    (∀ especies baseFund rows,
        parse_file_rows especies baseFund rows = [] →
        pellegriniPipeline especies baseFund rows
          = .error "No operations to write to Excel file") := by
  refine ⟨?_, ?_, ?_, ?_⟩
  · intro headers rows
    cases hic : initialize_columns headers with
    | error e => simp [transform_data, hic]
    | ok b =>
        by_cases hr : processRows b rows = [] <;>
          simp [transform_data, hic, hr]
  · intro headers rows b hic hr; simp [transform_data, hic, hr]
  · intro especies baseFund rows
    by_cases h : parse_file_rows especies baseFund rows = [] <;>
      simp [pellegriniPipeline, write_to_excel, h]
  · intro especies baseFund rows h
    simp [pellegriniPipeline, write_to_excel, h]

/-- C9 witness: both empty-result clauses applied at concrete empty
inputs. -/
theorem c9_empty_result_error_witness :
    transform_data stdHeaders []
      = .error "No valid data was parsed from the input file" ∧
    pellegriniPipeline [] "Pellegrini" []
      = .error "No operations to write to Excel file" :=
  ⟨c9_empty_result_error.2.1 stdHeaders [] stdBindings (by decide)
      (by decide),
   c9_empty_result_error.2.2.2 [] "Pellegrini" [] rfl⟩

/-- C6: `_get_ticker_for_fund` lowercases and trims both inputs, builds
the `"clase <letter>"` token, strips a leading `"pellegrini"` from the
fund name, and filters the table for rows whose instrument text contains
both substrings: a nonempty match set deterministically returns the first
match's ticker in table order (covering both the exactly-one and the
multiple-match cases), and an empty one returns — never raises — the
synthesized fallback containing the broker name, the fund-name token and
the share-class token. -/
theorem c6_ticker_resolution :
    (∀ especies fundName shareClass m rest,
        tickerMatchRows especies fundName shareClass = m :: rest →
        get_ticker_for_fund especies fundName shareClass = m.2) ∧
    (∀ especies fundName shareClass,
        tickerMatchRows especies fundName shareClass = [] →
        get_ticker_for_fund especies fundName shareClass
          = "pellegrini " ++ tickerFundToken fundName ++ " - " ++
            tickerClassToken shareClass ∧
        strHas (get_ticker_for_fund especies fundName shareClass)
          "pellegrini" = true ∧
        strHas (get_ticker_for_fund especies fundName shareClass)
          (tickerFundToken fundName) = true ∧
        strHas (get_ticker_for_fund especies fundName shareClass)
          (tickerClassToken shareClass) = true) ∧
    get_ticker_for_fund [("Pellegrini Renta Fija - Clase A", "PRFA")]
        "PELLEGRINI RENTA FIJA" "A" = "PRFA" ∧
    get_ticker_for_fund especiesTwo "PELLEGRINI RENTA FIJA" "A" = "T1" ∧
    get_ticker_for_fund [] "PELLEGRINI RENTA FIJA" "A"
      = "pellegrini renta fija - clase a" := by
  refine ⟨?_, ?_, by decide, by decide, by decide⟩
  · intro es f c m rest h; simp [get_ticker_for_fund, h]
  · intro es f c h
    have he : get_ticker_for_fund es f c
        = "pellegrini " ++ tickerFundToken f ++ " - " ++
          tickerClassToken c := by
      simp [get_ticker_for_fund, h]
    refine ⟨he, ?_, ?_, ?_⟩
    · rw [he]
      have hs : ("pellegrini " : String) = "pellegrini" ++ " " := by decide
      rw [hs]
      simp only [String.append_assoc]
      exact strHas_head _ _
    · rw [he]
      have hx : "pellegrini " ++ tickerFundToken f ++ " - " ++
            tickerClassToken c
          = "pellegrini " ++ tickerFundToken f ++
            (" - " ++ tickerClassToken c) := by
        simp only [String.append_assoc]
      rw [hx]
      exact strHas_parts _ _ _
    · rw [he]
      have hx : "pellegrini " ++ tickerFundToken f ++ " - " ++
            tickerClassToken c
          = ("pellegrini " ++ tickerFundToken f ++ " - ") ++
            tickerClassToken c ++ "" := by
        rw [String.append_empty]
      rw [hx]
      exact strHas_parts _ _ _

/-- C6 witness: the first-match and fallback clauses applied at concrete
tables. -/
theorem c6_ticker_resolution_witness :
    get_ticker_for_fund especiesTwo "PELLEGRINI RENTA FIJA" "A"
      = ("pellegrini renta fija clase a", "T1").2 ∧
    get_ticker_for_fund [] "X" "B"
      = "pellegrini " ++ tickerFundToken "X" ++ " - " ++
        tickerClassToken "B" :=
  ⟨c6_ticker_resolution.1 especiesTwo "PELLEGRINI RENTA FIJA" "A"
      ("pellegrini renta fija clase a", "T1")
      [("fci pellegrini renta fija - clase a", "T2")] (by decide),
   (c6_ticker_resolution.2.1 [] "X" "B" (by decide)).1⟩

/-- C7: for the Pellegrini format, classification is a constant function:
`_get_operation_type` ignores its label and returns MutualFund, every
record built by either variant has the MutualFund kind, and the label
only selects the sub-kind — `"Rescate"` gives `"FundRedemption"` and
`"Suscripción"` gives `"FundSubscription"` (in the legacy variant any
non-`"Rescate"` label gives `"FundSubscription"`). -/
theorem c7_constant_classification :
    (∀ label : Cell, get_operation_type label = .MUTUAL_FUND) ∧
    (∀ especies baseFund r mf, parse_row_v2 especies baseFund r = some mf →
        mf.operationType = .MUTUAL_FUND) ∧
    (∀ b r rec, parse_row b r = .ok rec →
        rec.operation_type = "MutualFund") ∧
    operationTypeMap (.strC "Rescate") = .strC "FundRedemption" ∧
    operationTypeMap (.strC "Suscripción") = .strC "FundSubscription" ∧
    (∀ b r rec tipo, parse_pellegrini_mutual_fund b r = .ok rec →
        rowGet r b.tipoLiquidacion = .ok tipo →
        rec.fund_operation_type
          = if cellEqStr tipo "Rescate" then "FundRedemption"
            else "FundSubscription") := by
  refine ⟨fun _ => rfl, ?_, ?_, by decide, by decide, ?_⟩
  · intro es bf r mf h
    unfold parse_row_v2 at h
    split at h
    · simp at h
    · split at h
      · split at h
        · simp at h
        · simp only [Option.some.injEq] at h
          subst h
          rfl
      · simp at h
  · intro b r rec h
    unfold parse_row at h
    split at h
    · simp at h
    · split at h
      · simp at h
      · unfold parse_pellegrini_mutual_fund at h
        split at h
        · simp only [Except.ok.injEq] at h
          subst h
          rfl
        · simp at h
  · intro b r rec tipo h htipo
    unfold parse_pellegrini_mutual_fund at h
    split at h
    next cu vc inv tipo0 fecha tcu num h1 h2 h3 h4 h5 h6 h7 =>
      rw [h4] at htipo
      have ht : tipo0 = tipo := Except.ok.inj htipo
      simp only [Except.ok.injEq] at h
      subst h
      simp [ht]
    next => simp at h

/-- C7 witness: the record-level clauses applied at concrete rows. -/
theorem c7_constant_classification_witness :
    goodMF.operationType = .MUTUAL_FUND ∧
    goodRec.operation_type = "MutualFund" ∧
    goodRec.fund_operation_type
      = if cellEqStr (.strC "Rescate") "Rescate" then "FundRedemption"
        else "FundSubscription" :=
  ⟨c7_constant_classification.2.1 [] "Pellegrini" goodRowP goodMF
      (by decide),
   c7_constant_classification.2.2.1 stdBindings goodRow goodRec (by decide),
   c7_constant_classification.2.2.2.2.2 stdBindings goodRow goodRec
      (.strC "Rescate") (by decide) (by decide)⟩

/-- C8, counterexample: the claim asserts every record of the mutual-fund
output path stores non-negative quantity and amount, but in the v2 path a
missing (NaN) `Cuotapartes` cell flows through `abs` as NaN, and NaN is
not non-negative. -/
theorem c8_abs_nan_counterexample :
    (parse_row_v2 [] "Pellegrini" nanQtyRow).map MF.quantity
      = some PyFloat.nan ∧
    ¬ PyFloat.nonneg PyFloat.nan :=
  ⟨by decide, by decide⟩

/-- C8, amended: both output paths store the absolute value of the parsed
cell; in the legacy path the stored quantity and amount are always
non-negative rationals, and in the v2 path they are non-negative whenever
the parsed cell value is an actual number (a NaN parsed value is stored as
NaN). -/
theorem c8_abs_normalization_amended :
    (∀ b r rec, parse_row b r = .ok rec →
        0 ≤ rec.security_amount ∧ 0 ≤ rec.net_payment_amount) ∧
    (∀ especies baseFund r mf, parse_row_v2 especies baseFund r = some mf →
        mf.quantity = pyAbs (clean_numeric r.cuotapartes) ∧
        mf.totalAmount = pyAbs (clean_numeric r.inversionNeta) ∧
        mf.amount = pyAbs (clean_numeric r.inversionNeta) ∧
        (clean_numeric r.cuotapartes ≠ .nan → mf.quantity.nonneg) ∧
        (clean_numeric r.inversionNeta ≠ .nan → mf.totalAmount.nonneg)) := by
  refine ⟨?_, ?_⟩
  · intro b r rec h
    unfold parse_row at h
    split at h
    · simp at h
    · split at h
      · simp at h
      · unfold parse_pellegrini_mutual_fund at h
        split at h
        · simp only [Except.ok.injEq] at h
          subst h
          exact ⟨abs_nonneg _, abs_nonneg _⟩
        · simp at h
  · intro especies baseFund r mf h
    unfold parse_row_v2 at h
    split at h
    · simp at h
    · split at h
      · split at h
        · simp at h
        · simp only [Option.some.injEq] at h
          subst h
          refine ⟨rfl, rfl, rfl, ?_, ?_⟩
          · intro hq; exact pyAbs_nonneg _ hq
          · intro hq; exact pyAbs_nonneg _ hq
      · simp at h

/-- C8 witness: the sign-normalization clauses applied at concrete rows
with negative inputs. -/
theorem c8_abs_normalization_amended_witness :
    (0 ≤ goodRec.security_amount ∧ 0 ≤ goodRec.net_payment_amount) ∧
    PyFloat.nonneg goodMF.quantity :=
  ⟨c8_abs_normalization_amended.1 stdBindings goodRow goodRec (by decide),
   (c8_abs_normalization_amended.2 [] "Pellegrini" goodRowP goodMF
      (by decide)).2.2.2.1 (by decide)⟩

/-- C2, counterexample: the claim asserts a row with an unparseable date
is skipped, but the legacy normalizer does not skip it — the row with
kind `"Rescate"` and date `"not-a-date"` produces a record (whose date
fields carry the empty-string sentinel instead). -/
theorem c2_unparseable_date_not_skipped :
    (parse_row stdBindings badDateRow).toOption ≠ none ∧
    (parse_row stdBindings badDateRow).toOption.map Rec.agreement_date
      = some "" ∧
    processRows stdBindings [badDateRow] ≠ [] :=
  ⟨by decide, by decide, by decide⟩

/-- C2, amended: the legacy normalizer skips a row exactly when the
kind-indicator cell is NaN or the non-data sentinel (or a cell access
fails), and continues: the row loop returns exactly the successfully
normalized records and a nonempty result never fails the file call; a row
with an unparseable date is, however, not skipped there (its date fields
get the empty sentinel).  The v2 normalizer skips rows whose date cell is
NaN or fails to parse, and its loop likewise returns exactly the
successfully parsed records. -/
theorem c2_row_normalizer_skip :
    (∀ b r tipo, rowGet r b.tipoLiquidacion = .ok tipo →
        (cellIsNA tipo = true ∨
          cellEqStr tipo "Fondo PELLEGRINI RENTA PESOS" = true) →
        parse_row b r = .error "Skipping header row") ∧
    (∀ b rows, processRows b rows
        = rows.filterMap (fun r => (parse_row b r).toOption)) ∧
    (∀ headers rows b, initialize_columns headers = .ok b →
        processRows b rows ≠ [] →
        transform_data headers rows = .ok (processRows b rows)) ∧
    (∀ especies baseFund r, cellIsNA r.fecha = true →
        parse_row_v2 especies baseFund r = none) ∧
    (∀ especies baseFund r s, r.fecha = .strC s → pyStrptimeDMY s = none →
        parse_row_v2 especies baseFund r = none) ∧
    (∀ especies baseFund rows,
        parse_file_rows especies baseFund rows
          = rows.filterMap (parse_row_v2 especies baseFund)) := by
  refine ⟨?_, processRows_eq, ?_, ?_, ?_, parse_file_rows_eq⟩
  · intro b r tipo hget hcond
    rcases hcond with h | h <;> simp [parse_row, hget, h]
  · intro headers rows b hic hne
    simp [transform_data, hic, hne]
  · intro especies baseFund r h
    simp [parse_row_v2, h]
  · intro especies baseFund r s hf hp
    simp [parse_row_v2, hf, hp, cellIsNA]

/-- C2 witness: the skip clauses applied at concrete rows — the sentinel
row is skipped, a one-good-row file succeeds, and the v2 parser skips a
bad-date row. -/
theorem c2_row_normalizer_skip_witness :
    parse_row stdBindings sentinelRow = .error "Skipping header row" ∧
    transform_data stdHeaders [goodRow]
      = .ok (processRows stdBindings [goodRow]) ∧
    parse_row_v2 [] "Pellegrini" badDateRowP = none :=
  ⟨c2_row_normalizer_skip.1 stdBindings sentinelRow
      (.strC "Fondo PELLEGRINI RENTA PESOS") (by decide)
      (Or.inr (by decide)),
   c2_row_normalizer_skip.2.2.1 stdHeaders [goodRow] stdBindings
      (by decide) (by decide),
   c2_row_normalizer_skip.2.2.2.2.1 [] "Pellegrini" badDateRowP
      "not-a-date" rfl (by decide)⟩
